import Mathlib

/-!
Shallow embedding of the interactive logic of two storefront widgets:

* `components/main/home-page/product-sale.tsx` — a best-sellers grid with a
  quick-view modal (item normalization, discount badges, selection state,
  quantity controls, add-to-cart confirmation, document scroll lock);
* `components/sections/RunningCarousel.tsx` — two auto-rotating carousel
  variants (a remote-gallery variant and a static-prop variant).

Prices are modelled as rationals, JavaScript `Math.round` as
`jsRound x = ⌊x + 1/2⌋`, JavaScript `%` on integers as truncating
`Int.tmod`, and nullable values as `Option`.
-/

namespace EcommerceFashion

/-! ## Data model of `product-sale.tsx` -/

/-- JavaScript `Math.round`: rounds half toward positive infinity. -/
def jsRound (x : ℚ) : ℤ := ⌊x + 1 / 2⌋

/-- Raw catalog entry as probed by the normalization helpers: every field the
component may read off a `Product`, each nullable.  `media` is the list of
`original_url` fields of the media entries (an entry without one is `none`). -/
structure Product where
  id : Option String
  slug : Option String
  name : Option String
  title : Option String
  price : Option ℚ
  selling_price : Option ℚ
  final_price : Option ℚ
  base_price : Option ℚ
  compare_at_price : Option ℚ
  original_price : Option ℚ
  normal_price : Option ℚ
  was : Option ℚ
  image : Option String
  thumbnail : Option String
  images : Option (List String)
  media : Option (List (Option String))
  description : Option String
  rating : Option ℚ
  reviews_count : Option ℕ
  stock : Option ℤ
  sku : Option String
deriving DecidableEq, Repr

/-- Color option of a sale item (name plus swatch hex). -/
structure Color where
  name : String
  hex : String
deriving DecidableEq, Repr

/-- Normalized display item (`SaleItem` in `product-sale.tsx`). -/
structure SaleItem where
  id : String
  name : String
  price : ℚ
  was : Option ℚ
  href : String
  image : Option String
  images : Option (List String)
  desc : Option String
  rating : Option ℚ
  reviews : Option ℕ
  stock : Option ℤ
  sku : Option String
  colors : Option (List Color)
  sizes : Option (List String)
deriving DecidableEq, Repr

/-- Fallback product image URL (`FALLBACK_IMG`). -/
def FALLBACK_IMG : String := "https://placehold.co/800x1066/efefef/444?text=Product"

/-- Default color options (`DEF_COLORS`). -/
def DEF_COLORS : List Color :=
  [⟨"Navy", "#1f2937"⟩, ⟨"Black", "#111827"⟩, ⟨"White", "#F9FAFB"⟩, ⟨"Grey", "#6b7280"⟩]

/-- Default size options (`DEF_SIZES`). -/
def DEF_SIZES : List String := ["S", "M", "L", "XL", "XXL"]

/-- Helper `getProductImage`: `image ?? thumbnail ?? images[0] ?? media[0]?.original_url`.
An empty `images` (or `media`) list contributes nothing, exactly as indexing
position 0 of an empty array yields `undefined`. -/
def getProductImage (p : Product) : Option String :=
  p.image <|> p.thumbnail <|> p.images.bind List.head? <|> (p.media.bind List.head?).bind id

/-- Helper `getProductSlug`: `slug ?? String(id ?? "")`. -/
def getProductSlug (p : Product) : String :=
  p.slug.getD (p.id.getD "")

/-- Helper `getProductName`: `name ?? title ?? "Product"`. -/
def getProductName (p : Product) : String :=
  p.name.getD (p.title.getD "Product")

/-- Result shape of `getPrices`. -/
structure Prices where
  price : ℚ
  was : Option ℚ
deriving DecidableEq, Repr

/-- Helper `getPrices`: current price is the first available of
`price ?? selling_price ?? final_price ?? base_price ?? 0`; the compare-at
price is the first of `compare_at_price ?? original_price ?? normal_price ??
was`, and is dropped (`safeWas`) unless strictly greater than the current
price. -/
def getPrices (p : Product) : Prices :=
  let price := (p.price <|> p.selling_price <|> p.final_price <|> p.base_price).getD 0
  let was := p.compare_at_price <|> p.original_price <|> p.normal_price <|> p.was
  let safeWas := match was with
    | some w => if price < w then some w else none
    | none => none
  ⟨price, safeWas⟩

/-- Normalization `toSaleItem`: maps a raw catalog entry into the display
shape; `colors`/`sizes` are always the fixed defaults, `images` is always
absent, and `image` always falls back to the placeholder. -/
def toSaleItem (p : Product) : SaleItem :=
  let pr := getPrices p
  let slug := getProductSlug p
  { id := p.id.getD slug
    name := getProductName p
    price := pr.price
    was := pr.was
    href := "/product/" ++ slug
    image := some ((getProductImage p).getD FALLBACK_IMG)
    images := none
    desc := p.description
    rating := p.rating
    reviews := p.reviews_count
    stock := p.stock
    sku := p.sku
    colors := some DEF_COLORS
    sizes := some DEF_SIZES }

/-- Grid list: `(data?.data ?? []).slice(0, 8).map(toSaleItem)`. -/
def itemsOf (l : List Product) : List SaleItem :=
  (l.take 8).map toSaleItem

/-! ## Discount badges -/

/-- Grid-card discount badge: rendered only when `was` is a number strictly
greater than `price` (`hasDiscount`), showing
`Math.max(0, Math.round(((was - price) / was) * 100))`. -/
def gridBadge (it : SaleItem) : Option ℤ :=
  match it.was with
  | some w =>
      if it.price < w then some (max 0 (jsRound ((w - it.price) / w * 100))) else none
  | none => none

/-- Modal-header discount badge: rendered when `typeof was === "number"` and
`was > price`, showing `Math.max(0, Math.round(((was - price) / was) * 100))`. -/
def modalBadge (it : SaleItem) : Option ℤ :=
  match it.was with
  | some w =>
      if it.price < w then some (max 0 (jsRound ((w - it.price) / w * 100))) else none
  | none => none

/-- Modelled from the spec: the discount percentage the spec prescribes,
`round((original − current) / original × 100)` clamped to be ≥ 0. -/
def specDiscountPercent (current original : ℚ) : ℤ :=
  max 0 (jsRound ((original - current) / original * 100))

/-! ## Carousel (`RunningCarousel.tsx`, gallery variant and static variant) -/

/-- JavaScript `%` on integers: truncated remainder (sign of the dividend). -/
def jsMod (a b : ℤ) : ℤ := Int.tmod a b

/-- Shared directional step `go`: `setIndex((i) => (i + dir + items.length) % items.length)`. -/
def carouselGo (n : ℕ) (dir : ℤ) (i : ℤ) : ℤ :=
  jsMod (i + dir + n) n

/-- Autoplay tick body: `setIndex((i) => (i + 1) % items.length)`. -/
def carouselTick (n : ℕ) (i : ℤ) : ℤ :=
  jsMod (i + 1) n

/-- Gallery variant item list: keep each entry whose `image` field is a string
(`typeof it.image === "string" ? it.image : ""`) and drop empty strings. -/
def galleryItems (raw : List (Option String)) : List String :=
  (raw.map (fun img => img.getD "")).filter (fun u => u.length > 0)

/-- Gallery variant: arrows render under `showArrows && items.length > 1`. -/
def galleryArrowsVisible (showArrows : Bool) (n : ℕ) : Bool :=
  showArrows && decide (1 < n)

/-- Gallery variant: dots render under `showDots && items.length > 1`. -/
def galleryDotsVisible (showDots : Bool) (n : ℕ) : Bool :=
  showDots && decide (1 < n)

/-- Gallery variant: the autoplay interval is scheduled unless
`paused || items.length <= 1`. -/
def galleryTimerScheduled (paused : Bool) (n : ℕ) : Bool :=
  !paused && decide (1 < n)

/-- Static variant item list: `images?.length ? images : [DEFAULT_IMAGE ×3]`. -/
def DEFAULT_IMAGE : String :=
  "https://i.pinimg.com/1200x/dc/28/77/dc2877f08ba923ba34c8fa70bae94128.jpg"

/-- Static variant item list: a non-empty `images` prop is used as-is; a
missing or empty one is replaced by a triple of the default image. -/
def staticItems (images : Option (List String)) : List String :=
  match images with
  | some l => if l.length ≠ 0 then l else [DEFAULT_IMAGE, DEFAULT_IMAGE, DEFAULT_IMAGE]
  | none => [DEFAULT_IMAGE, DEFAULT_IMAGE, DEFAULT_IMAGE]

/-- Static variant: arrows render under `showArrows` alone (no length check). -/
def staticArrowsVisible (showArrows : Bool) : Bool :=
  showArrows

/-- Static variant: dots render under `showDots` alone (no length check). -/
def staticDotsVisible (showDots : Bool) : Bool :=
  showDots

/-- Static variant: the autoplay interval is scheduled unless `paused`
(no item-count guard). -/
def staticTimerScheduled (paused : Bool) : Bool :=
  !paused

/-- Carousel component state shared by both variants: item count, current
slide index, hover-pause flag. -/
structure CarouselState where
  numItems : ℕ
  index : ℤ
  paused : Bool
deriving DecidableEq, Repr

/-- Events of the gallery variant: hover pause/resume, an autoplay tick, the
arrow controls, a dot selection, and the fetched item list changing length. -/
inductive GalleryEvent where
  | hoverEnter
  | hoverLeave
  | tick
  | next
  | prev
  | dot (j : ℕ)
  | setItems (m : ℕ)
deriving DecidableEq, Repr

/-- Step function of the gallery variant.  A tick advances the index only
while the interval is scheduled; a change in `items.length` re-runs the
`setIndex(0)` effect (an unchanged length does not re-trigger it). -/
def galleryStep (e : GalleryEvent) (s : CarouselState) : CarouselState :=
  match e with
  | .hoverEnter => { s with paused := true }
  | .hoverLeave => { s with paused := false }
  | .tick =>
      if galleryTimerScheduled s.paused s.numItems
      then { s with index := carouselTick s.numItems s.index } else s
  | .next => { s with index := carouselGo s.numItems 1 s.index }
  | .prev => { s with index := carouselGo s.numItems (-1) s.index }
  | .dot j => { s with index := (j : ℤ) }
  | .setItems m =>
      if m = s.numItems then s else { numItems := m, index := 0, paused := s.paused }

/-- Events of the static variant: as for the gallery variant, except that the
item list is derived from the `images` prop. -/
inductive StaticEvent where
  | hoverEnter
  | hoverLeave
  | tick
  | next
  | prev
  | dot (j : ℕ)
  | setImages (images : Option (List String))
deriving DecidableEq, Repr

/-- Step function of the static variant.  A tick advances the index whenever
not paused (no item-count guard), and a change of the `images` prop updates
the item list but leaves the index untouched (there is no reset effect). -/
def staticStep (e : StaticEvent) (s : CarouselState) : CarouselState :=
  match e with
  | .hoverEnter => { s with paused := true }
  | .hoverLeave => { s with paused := false }
  | .tick =>
      if staticTimerScheduled s.paused
      then { s with index := carouselTick s.numItems s.index } else s
  | .next => { s with index := carouselGo s.numItems 1 s.index }
  | .prev => { s with index := carouselGo s.numItems (-1) s.index }
  | .dot j => { s with index := (j : ℤ) }
  | .setImages images => { s with numItems := (staticItems images).length }

/-- Initial state of the static variant for a given `images` prop. -/
def staticInit (images : Option (List String)) : CarouselState :=
  { numItems := (staticItems images).length, index := 0, paused := false }

/-- Pure navigation steps shared by both variants (`next`/`prev` via `go`,
dot selection, autoplay tick), acting on the index alone. -/
inductive NavEvent where
  | next
  | prev
  | tick
  | dot (j : ℕ)
deriving DecidableEq, Repr

/-- Index transformation of one navigation step, for item count `n`. -/
def navStep (n : ℕ) (e : NavEvent) (i : ℤ) : ℤ :=
  match e with
  | .next => carouselGo n 1 i
  | .prev => carouselGo n (-1) i
  | .tick => carouselTick n i
  | .dot j => (j : ℤ)

/-- A navigation event the UI can actually emit: dots exist only for indices
below the item count. -/
def navValid (n : ℕ) (e : NavEvent) : Bool :=
  match e with
  | .dot j => decide (j < n)
  | _ => true

/-! ## Quick-view modal (`ProductSale` component state) -/

/-- Modal selection state of `ProductSale`: `active`, `activeImg`, `color`,
`size`, `qty`. -/
structure ModalState where
  active : Option SaleItem
  activeImg : ℕ
  color : Option String
  size : Option String
  qty : ℤ
deriving DecidableEq, Repr

/-- Payload of the `cart:add` broadcast: the item spread together with the
chosen color, chosen size, and quantity. -/
structure CartAddDetail where
  item : SaleItem
  color : String
  size : String
  qty : ℤ
deriving DecidableEq, Repr

/-- Validation prompt text of the add-to-cart action. -/
def addToCartAlert : String := "Please select a color and size first."

/-- Outcome of one click handler: the updated modal selection state, the
`cart:add` events dispatched, and the alerts raised. -/
structure ConfirmResult where
  state : ModalState
  events : List CartAddDetail
  alerts : List String
deriving DecidableEq, Repr

/-- Option lists the modal renders for an item: `active.colors ?? DEF_COLORS`. -/
def itemColors (it : SaleItem) : List Color :=
  it.colors.getD DEF_COLORS

/-- Option lists the modal renders for an item: `active.sizes ?? DEF_SIZES`. -/
def itemSizes (it : SaleItem) : List String :=
  it.sizes.getD DEF_SIZES

/-- Add-to-cart button enablement: `disabled={!active.stock || active.stock <= 0}`,
so the action is enabled exactly when the stock is known and positive. -/
def addToCartEnabled (it : SaleItem) : Bool :=
  match it.stock with
  | some n => decide (0 < n)
  | none => false

/-- Add-to-cart click handler: `if (!color || !size) return alert(...)`, else
dispatch one `cart:add` event with `{ ...active, color, size, qty }` and
`setActive(null)`.  JavaScript falsiness means a `null` or empty-string
selection takes the blocking branch. -/
def addToCartClick (m : ModalState) : ConfirmResult :=
  match m.active with
  | none => ⟨m, [], []⟩
  | some it =>
      match m.color, m.size with
      | some c, some z =>
          if c = "" ∨ z = "" then ⟨m, [], [addToCartAlert]⟩
          else ⟨{ m with active := none }, [⟨it, c, z, m.qty⟩], []⟩
      | some _, none => ⟨m, [], [addToCartAlert]⟩
      | none, _ => ⟨m, [], [addToCartAlert]⟩

/-- Quantity-control events: decrement, increment, direct entry (the parse
result of the text, `none` when `parseInt` yields `NaN`). -/
inductive QtyEvent where
  | dec
  | inc
  | input (v : Option ℤ)
deriving DecidableEq, Repr

/-- Quantity transitions: `Math.max(1, q - 1)`, `q + 1`, and
`Number.isNaN(val) ? 1 : Math.max(1, val)`. -/
def qtyStep (e : QtyEvent) (q : ℤ) : ℤ :=
  match e with
  | .dec => max 1 (q - 1)
  | .inc => q + 1
  | .input none => 1
  | .input (some v) => max 1 v

/-- Whole-component state: the modal selection state, whether the document
scroll lock is engaged (`document.documentElement.style.overflow === "hidden"`),
and whether the component is still mounted. -/
structure CompState where
  modal : ModalState
  scrollLocked : Bool
  mounted : Bool
deriving DecidableEq, Repr

/-- State on first render: no active item, defaults, scroll unlocked. -/
def initialModal : ModalState :=
  { active := none, activeImg := 0, color := none, size := none, qty := 1 }

/-- State on first render of the whole component. -/
def initialState : CompState :=
  { modal := initialModal, scrollLocked := false, mounted := true }

/-- Effect on `[active]`: it re-runs exactly when `active` changed; on open it
locks scroll and resets image index, color, size and quantity to the item
defaults, on close it restores scroll. -/
def applyActiveEffect (old : Option SaleItem) (s : CompState) : CompState :=
  if s.modal.active = old then s
  else
    match s.modal.active with
    | some it =>
        { s with scrollLocked := true
                 modal := { s.modal with
                             activeImg := 0
                             color := (it.colors.bind List.head?).map Color.name
                             size := it.sizes.bind List.head?
                             qty := 1 } }
    | none => { s with scrollLocked := false }

/-- UI events of the `ProductSale` component. -/
inductive ModalEvent where
  | openItem (it : SaleItem)
  | closeBtn
  | overlayClick
  | escape
  | selectImg (i : ℕ)
  | selectColor (c : Color)
  | selectSize (z : String)
  | qtyDec
  | qtyInc
  | qtyInput (v : Option ℤ)
  | confirm
  | unmount
deriving DecidableEq, Repr

/-- Result of one component step: new state plus dispatched events/alerts. -/
structure StepResult where
  state : CompState
  events : List CartAddDetail
  alerts : List String
deriving DecidableEq, Repr

/-- Step function of the `ProductSale` component: each handler updates the
React state, then the `[active]` effect reacts to a change of `active`.
Unmount runs the effect cleanup, restoring scroll. -/
def modalStep (e : ModalEvent) (s : CompState) : StepResult :=
  match e with
  | .openItem it =>
      ⟨applyActiveEffect s.modal.active
        { s with modal := { s.modal with active := some it } }, [], []⟩
  | .closeBtn =>
      ⟨applyActiveEffect s.modal.active
        { s with modal := { s.modal with active := none } }, [], []⟩
  | .overlayClick =>
      ⟨applyActiveEffect s.modal.active
        { s with modal := { s.modal with active := none } }, [], []⟩
  | .escape =>
      ⟨applyActiveEffect s.modal.active
        { s with modal := { s.modal with active := none } }, [], []⟩
  | .selectImg i => ⟨{ s with modal := { s.modal with activeImg := i } }, [], []⟩
  | .selectColor c => ⟨{ s with modal := { s.modal with color := some c.name } }, [], []⟩
  | .selectSize z => ⟨{ s with modal := { s.modal with size := some z } }, [], []⟩
  | .qtyDec => ⟨{ s with modal := { s.modal with qty := qtyStep .dec s.modal.qty } }, [], []⟩
  | .qtyInc => ⟨{ s with modal := { s.modal with qty := qtyStep .inc s.modal.qty } }, [], []⟩
  | .qtyInput v =>
      ⟨{ s with modal := { s.modal with qty := qtyStep (.input v) s.modal.qty } }, [], []⟩
  | .confirm =>
      let r := addToCartClick s.modal
      ⟨applyActiveEffect s.modal.active { s with modal := r.state }, r.events, r.alerts⟩
  | .unmount => ⟨{ s with mounted := false, scrollLocked := false }, [], []⟩

/-- Events the rendered UI can actually emit in a given state: the grid is
clickable only while no modal is open, the modal controls exist only while it
is open, selections come from the rendered option lists, and the confirm
button is clickable only when enabled. -/
def validEvent (grid : List SaleItem) (s : CompState) (e : ModalEvent) : Prop :=
  s.mounted = true ∧
  match e with
  | .openItem it => s.modal.active = none ∧ it ∈ grid
  | .closeBtn => s.modal.active.isSome = true
  | .overlayClick => s.modal.active.isSome = true
  | .escape => True
  | .selectImg _ => s.modal.active.isSome = true
  | .selectColor c => ∃ it, s.modal.active = some it ∧ c ∈ itemColors it
  | .selectSize z => ∃ it, s.modal.active = some it ∧ z ∈ itemSizes it
  | .qtyDec => s.modal.active.isSome = true
  | .qtyInc => s.modal.active.isSome = true
  | .qtyInput _ => s.modal.active.isSome = true
  | .confirm => ∃ it, s.modal.active = some it ∧ addToCartEnabled it = true
  | .unmount => True

/-- Component states reachable from first render through UI events. -/
inductive Reachable (grid : List SaleItem) : CompState → Prop where
  | init : Reachable grid initialState
  | step {s : CompState} (e : ModalEvent) :
      Reachable grid s → validEvent grid s e → Reachable grid (modalStep e s).state

/-- Invariant maintained by every reachable component state: the scroll lock
mirrors `mounted && modal open`, the quantity is at least 1, and while the
modal is open the active item is one of the grid's and the selections come
from its option lists (or are still the open-time defaults). -/
def Inv (grid : List SaleItem) (s : CompState) : Prop :=
  s.scrollLocked = (s.mounted && s.modal.active.isSome) ∧
  1 ≤ s.modal.qty ∧
  ∀ it, s.modal.active = some it →
    it ∈ grid ∧
    (s.modal.color = (it.colors.bind List.head?).map Color.name ∨
      ∃ c ∈ itemColors it, s.modal.color = some c.name) ∧
    (s.modal.size = it.sizes.bind List.head? ∨
      ∃ z ∈ itemSizes it, s.modal.size = some z)

/-- Sample raw catalog entry used to instantiate theorems on concrete data. -/
def sampleProduct : Product :=
  { id := some "1", slug := some "tee", name := some "Tee", title := none,
    price := some 75, selling_price := none, final_price := none, base_price := none,
    compare_at_price := some 100, original_price := none, normal_price := none, was := none,
    image := none, thumbnail := none, images := none, media := none,
    description := none, rating := none, reviews_count := none, stock := some 3, sku := none }

/-- Sample sale item used to instantiate theorems on concrete data. -/
def sampleItem : SaleItem := toSaleItem sampleProduct

/-- Sample open-modal selection state used to instantiate theorems. -/
def sampleModal : ModalState :=
  { active := some sampleItem, activeImg := 0,
    color := some "Navy", size := some "S", qty := 2 }

/-! ## Helper lemmas -/

lemma jsMod_of_nonneg (a : ℤ) (n : ℕ) (ha : 0 ≤ a) : jsMod a n = a % n :=
  Int.tmod_eq_emod ha (Int.ofNat_nonneg n)

lemma jsMod_nonneg (a : ℤ) (n : ℕ) (ha : 0 ≤ a) (hn : 0 < n) : 0 ≤ jsMod a n := by
  rw [jsMod_of_nonneg a n ha]
  exact Int.emod_nonneg a (by exact_mod_cast hn.ne')

lemma jsMod_lt (a : ℤ) (n : ℕ) (ha : 0 ≤ a) (hn : 0 < n) : jsMod a n < n := by
  rw [jsMod_of_nonneg a n ha]
  exact Int.emod_lt_of_pos a (by exact_mod_cast hn)

lemma carouselGo_next_eq (n : ℕ) (i : ℤ) (h0 : 0 ≤ i) (hn : 0 < n) :
    carouselGo n 1 i = (i + 1) % n := by
  unfold carouselGo
  rw [jsMod_of_nonneg _ n (by omega)]
  have : i + 1 + (n : ℤ) = i + 1 + (n : ℤ) * 1 := by ring
  rw [this, Int.add_mul_emod_self_left]

lemma carouselGo_prev_eq (n : ℕ) (i : ℤ) (h0 : 0 ≤ i) (hn : 0 < n) :
    carouselGo n (-1) i = (i - 1 + n) % n := by
  unfold carouselGo
  have hn1 : (1 : ℤ) ≤ (n : ℤ) := by exact_mod_cast hn
  rw [jsMod_of_nonneg _ n (by omega)]
  have : i + -1 + (n : ℤ) = i - 1 + (n : ℤ) := by ring
  rw [this]

lemma carouselGo_range (n : ℕ) (d : ℤ) (i : ℤ) (hd : d = 1 ∨ d = -1)
    (h0 : 0 ≤ i) (hn : 0 < n) : 0 ≤ carouselGo n d i ∧ carouselGo n d i < n := by
  have hn1 : (1 : ℤ) ≤ (n : ℤ) := by exact_mod_cast hn
  have ha : 0 ≤ i + d + (n : ℤ) := by rcases hd with h | h <;> omega
  exact ⟨jsMod_nonneg _ n ha hn, jsMod_lt _ n ha hn⟩

lemma carouselGo_prev_next (n : ℕ) (i : ℤ) (hn : 1 < n) (h0 : 0 ≤ i) (h1 : i < n) :
    carouselGo n (-1) (carouselGo n 1 i) = i := by
  have hnp : 0 < n := by omega
  have hn1 : (1 : ℤ) ≤ (n : ℤ) := by exact_mod_cast hnp
  have hin : i < (n : ℤ) := h1
  obtain ⟨hj0, hj1⟩ := carouselGo_range n 1 i (Or.inl rfl) h0 hnp
  rw [carouselGo_prev_eq n _ hj0 hnp, carouselGo_next_eq n i h0 hnp]
  have : (i + 1) % (n : ℤ) - 1 + (n : ℤ) = (i + 1) % (n : ℤ) + ((n : ℤ) - 1) := by ring
  rw [this, Int.emod_add_emod]
  have : i + 1 + ((n : ℤ) - 1) = i + (n : ℤ) * 1 := by ring
  rw [this, Int.add_mul_emod_self_left]
  exact Int.emod_eq_of_lt h0 hin

lemma carouselGo_next_prev (n : ℕ) (i : ℤ) (hn : 1 < n) (h0 : 0 ≤ i) (h1 : i < n) :
    carouselGo n 1 (carouselGo n (-1) i) = i := by
  have hnp : 0 < n := by omega
  have hn1 : (1 : ℤ) ≤ (n : ℤ) := by exact_mod_cast hnp
  have hin : i < (n : ℤ) := h1
  obtain ⟨hj0, hj1⟩ := carouselGo_range n (-1) i (Or.inr rfl) h0 hnp
  rw [carouselGo_next_eq n _ hj0 hnp, carouselGo_prev_eq n i h0 hnp]
  rw [Int.emod_add_emod]
  have : i - 1 + (n : ℤ) + 1 = i + (n : ℤ) * 1 := by ring
  rw [this, Int.add_mul_emod_self_left]
  exact Int.emod_eq_of_lt h0 hin

lemma navStep_range (n : ℕ) (hn : 0 < n) (e : NavEvent) (he : navValid n e = true)
    (i : ℤ) (h0 : 0 ≤ i) (_h1 : i < n) : 0 ≤ navStep n e i ∧ navStep n e i < n := by
  cases e with
  | next => exact carouselGo_range n 1 i (Or.inl rfl) h0 hn
  | prev => exact carouselGo_range n (-1) i (Or.inr rfl) h0 hn
  | tick =>
      exact ⟨jsMod_nonneg _ n (by omega) hn, jsMod_lt _ n (by omega) hn⟩
  | dot j =>
      simp only [navValid, decide_eq_true_eq] at he
      simp only [navStep]
      constructor
      · exact_mod_cast Nat.zero_le j
      · exact_mod_cast he

lemma navFold_range (n : ℕ) (hn : 0 < n) (es : List NavEvent)
    (hes : ∀ e ∈ es, navValid n e = true) (i : ℤ) (h0 : 0 ≤ i) (h1 : i < n) :
    0 ≤ es.foldl (fun j e => navStep n e j) i ∧
      es.foldl (fun j e => navStep n e j) i < n := by
  induction es generalizing i with
  | nil => exact ⟨h0, h1⟩
  | cons e es ih =>
      obtain ⟨h0', h1'⟩ := navStep_range n hn e (hes e (by simp)) i h0 h1
      exact ih (fun e he => hes e (by simp [he])) _ h0' h1'

lemma qtyStep_ge_one (e : QtyEvent) (q : ℤ) (hq : 1 ≤ q) : 1 ≤ qtyStep e q := by
  cases e with
  | dec => exact le_max_left _ _
  | inc => simp only [qtyStep]; omega
  | input v =>
      cases v with
      | none => exact le_refl 1
      | some w => exact le_max_left _ _

lemma modalStep_open_eq (s : CompState) (it : SaleItem) (h : s.modal.active = none) :
    modalStep (.openItem it) s =
      ⟨{ modal := { active := some it, activeImg := 0,
                    color := (it.colors.bind List.head?).map Color.name,
                    size := it.sizes.bind List.head?, qty := 1 },
         scrollLocked := true, mounted := s.mounted }, [], []⟩ := by
  simp [modalStep, applyActiveEffect, h]

lemma closeEffect_some (s : CompState) (it : SaleItem) :
    applyActiveEffect (some it) { s with modal := { s.modal with active := none } } =
      { modal := { s.modal with active := none },
        scrollLocked := false, mounted := s.mounted } := by
  simp [applyActiveEffect]

lemma closeEffect_none (s : CompState) :
    applyActiveEffect none { s with modal := { s.modal with active := none } } =
      { s with modal := { s.modal with active := none } } := by
  simp [applyActiveEffect]

lemma addToCartClick_state_cases (m : ModalState) :
    (addToCartClick m).state = m ∨
      ((addToCartClick m).state = { m with active := none } ∧ m.active.isSome = true) := by
  unfold addToCartClick
  cases ha : m.active with
  | none => left; rfl
  | some it =>
      cases hc : m.color with
      | none => left; rfl
      | some c =>
          cases hz : m.size with
          | none => left; rfl
          | some z =>
              by_cases hez : c = "" ∨ z = ""
              · left; simp [hez]
              · right; simp [hez, ha]

lemma inv_of_close {grid : List SaleItem} {s : CompState} (h : Inv grid s) :
    Inv grid (applyActiveEffect s.modal.active
      { s with modal := { s.modal with active := none } }) := by
  obtain ⟨hlock, hqty, hact⟩ := h
  cases hao : s.modal.active with
  | none =>
      rw [closeEffect_none s]
      exact ⟨by simp [hlock, hao], hqty, by intro it' h'; simp at h'⟩
  | some it =>
      rw [closeEffect_some s it]
      exact ⟨by simp, hqty, by intro it' h'; simp at h'⟩

lemma reachable_inv {grid : List SaleItem} {s : CompState}
    (h : Reachable grid s) : Inv grid s := by
  induction h with
  | init =>
      refine ⟨rfl, by norm_num [initialState, initialModal], ?_⟩
      intro it hit
      simp [initialState, initialModal] at hit
  | @step s e hr hv ih =>
      obtain ⟨hlock, hqty, hact⟩ := ih
      obtain ⟨hm, hve⟩ := hv
      cases e with
      | openItem it =>
          obtain ⟨hnone, hmem⟩ := hve
          rw [modalStep_open_eq s it hnone]
          refine ⟨by simp [hm], by norm_num, ?_⟩
          intro it' h'
          simp only [Option.some.injEq] at h'
          subst h'
          exact ⟨hmem, Or.inl rfl, Or.inl rfl⟩
      | closeBtn => exact inv_of_close ⟨hlock, hqty, hact⟩
      | overlayClick => exact inv_of_close ⟨hlock, hqty, hact⟩
      | escape => exact inv_of_close ⟨hlock, hqty, hact⟩
      | selectImg i =>
          refine ⟨by simpa using hlock, hqty, ?_⟩
          intro it' h'
          exact hact it' h'
      | selectColor c =>
          obtain ⟨it, hit, hc⟩ := hve
          refine ⟨by simpa using hlock, hqty, ?_⟩
          intro it' h'
          have h'' : s.modal.active = some it' := h'
          obtain ⟨hmem, _, hsz⟩ := hact it' h''
          have hii : it' = it := by rw [hit] at h''; exact (Option.some.injEq _ _ ▸ h'').symm
          subst hii
          exact ⟨hmem, Or.inr ⟨c, hc, rfl⟩, hsz⟩
      | selectSize z =>
          obtain ⟨it, hit, hz⟩ := hve
          refine ⟨by simpa using hlock, hqty, ?_⟩
          intro it' h'
          have h'' : s.modal.active = some it' := h'
          obtain ⟨hmem, hcol, _⟩ := hact it' h''
          have hii : it' = it := by rw [hit] at h''; exact (Option.some.injEq _ _ ▸ h'').symm
          subst hii
          exact ⟨hmem, hcol, Or.inr ⟨z, hz, rfl⟩⟩
      | qtyDec =>
          refine ⟨by simpa using hlock, qtyStep_ge_one .dec s.modal.qty hqty, ?_⟩
          intro it' h'
          exact hact it' h'
      | qtyInc =>
          refine ⟨by simpa using hlock, qtyStep_ge_one .inc s.modal.qty hqty, ?_⟩
          intro it' h'
          exact hact it' h'
      | qtyInput v =>
          refine ⟨by simpa using hlock, qtyStep_ge_one (.input v) s.modal.qty hqty, ?_⟩
          intro it' h'
          exact hact it' h'
      | confirm =>
          simp only [modalStep]
          rcases addToCartClick_state_cases s.modal with hst | ⟨hst, _⟩
          · rw [hst]
            have heq : applyActiveEffect s.modal.active { s with modal := s.modal } = s := by
              simp [applyActiveEffect]
            rw [heq]
            exact ⟨hlock, hqty, hact⟩
          · rw [hst]
            exact inv_of_close ⟨hlock, hqty, hact⟩
      | unmount =>
          refine ⟨by simp [modalStep], hqty, ?_⟩
          intro it' h'
          exact hact it' h'

lemma getPrices_was_lt (p : Product) (w : ℚ) (h : (getPrices p).was = some w) :
    (getPrices p).price < w := by
  unfold getPrices at h ⊢
  simp only at h ⊢
  split at h
  · next w' _ =>
      split at h
      · next hlt =>
          simp only [Option.some.injEq] at h
          subst h
          exact hlt
      · simp at h
  · simp at h

lemma toSaleItem_was (p : Product) : (toSaleItem p).was = (getPrices p).was := rfl

lemma toSaleItem_price (p : Product) : (toSaleItem p).price = (getPrices p).price := rfl

lemma itemColors_toSaleItem (p : Product) : itemColors (toSaleItem p) = DEF_COLORS := rfl

lemma itemSizes_toSaleItem (p : Product) : itemSizes (toSaleItem p) = DEF_SIZES := rfl

lemma mem_itemsOf {ps : List Product} {it : SaleItem} (h : it ∈ itemsOf ps) :
    ∃ p, it = toSaleItem p := by
  simp only [itemsOf, List.mem_map] at h
  obtain ⟨p, _, hp⟩ := h
  exact ⟨p, hp.symm⟩

lemma def_color_name_ne (c : Color) (h : c ∈ DEF_COLORS) : c.name ≠ "" := by
  simp only [DEF_COLORS, List.mem_cons, List.not_mem_nil, or_false] at h
  rcases h with h | h | h | h <;> subst h <;> decide

lemma def_size_ne (z : String) (h : z ∈ DEF_SIZES) : z ≠ "" := by
  simp only [DEF_SIZES, List.mem_cons, List.not_mem_nil, or_false] at h
  rcases h with h | h | h | h | h <;> subst h <;> decide

lemma reachable_selection {ps : List Product} {s : CompState} {it : SaleItem}
    (h : Reachable (itemsOf ps) s) (ha : s.modal.active = some it) :
    (∃ c ∈ DEF_COLORS, s.modal.color = some c.name) ∧
      (∃ z ∈ DEF_SIZES, s.modal.size = some z) := by
  obtain ⟨_, _, hact⟩ := reachable_inv h
  obtain ⟨hmem, hcol, hsz⟩ := hact it ha
  obtain ⟨p, hp⟩ := mem_itemsOf hmem
  subst hp
  constructor
  · rcases hcol with h1 | ⟨c, hc, hcn⟩
    · exact ⟨⟨"Navy", "#1f2937"⟩, by simp [DEF_COLORS], by rw [h1]; rfl⟩
    · rw [itemColors_toSaleItem] at hc
      exact ⟨c, hc, hcn⟩
  · rcases hsz with h1 | ⟨z, hz, hzn⟩
    · exact ⟨"S", by simp [DEF_SIZES], by rw [h1]; rfl⟩
    · rw [itemSizes_toSaleItem] at hz
      exact ⟨z, hz, hzn⟩

lemma addToCartClick_alerts_nil (m : ModalState) (it : SaleItem) (ha : m.active = some it)
    (c z : String) (hc : m.color = some c) (hz : m.size = some z)
    (hcne : c ≠ "") (hzne : z ≠ "") : (addToCartClick m).alerts = [] := by
  unfold addToCartClick
  rw [ha, hc, hz]
  simp only
  rw [if_neg (by tauto)]

lemma qtyFold_ge_one (es : List QtyEvent) (q : ℤ) (hq : 1 ≤ q) :
    1 ≤ es.foldl (fun a e => qtyStep e a) q := by
  induction es generalizing q with
  | nil => exact hq
  | cons e es ih => exact ih _ (qtyStep_ge_one e q hq)

lemma staticItems_length_pos (imgs : Option (List String)) :
    1 ≤ (staticItems imgs).length := by
  cases imgs with
  | none => simp [staticItems]
  | some l =>
      simp only [staticItems]
      split
      · next h => omega
      · simp

lemma toSaleItem_stock (p : Product) : (toSaleItem p).stock = p.stock := rfl

lemma def_color_names_ne (c : String) (h : c ∈ DEF_COLORS.map Color.name) : c ≠ "" := by
  simp only [DEF_COLORS, List.map_cons, List.map_nil, List.mem_cons,
    List.not_mem_nil, or_false] at h
  rcases h with h | h | h | h <;> subst h <;> decide

/-! ## Claims -/

/-- C2: for every item produced by the normalization step, a discount badge is
rendered if and only if the original price is a number strictly greater than
the current price; the displayed percentage is `round((was − price)/was × 100)`
clamped to be ≥ 0; and the grid card and the modal header agree. -/
theorem c2_discount_badge (p : Product) :
    ((gridBadge (toSaleItem p)).isSome = true ↔
      ∃ w, (toSaleItem p).was = some w ∧ (toSaleItem p).price < w) ∧
    (∀ w, (toSaleItem p).was = some w →
      gridBadge (toSaleItem p) = some (specDiscountPercent (toSaleItem p).price w)) ∧
    modalBadge (toSaleItem p) = gridBadge (toSaleItem p) := by
  refine ⟨⟨?_, ?_⟩, ?_, rfl⟩
  · intro hs
    cases hw : (toSaleItem p).was with
    | none => unfold gridBadge at hs; rw [hw] at hs; simp at hs
    | some w =>
        refine ⟨w, rfl, ?_⟩
        rw [toSaleItem_was] at hw
        rw [toSaleItem_price]
        exact getPrices_was_lt p w hw
  · rintro ⟨w, hw, hlt⟩
    unfold gridBadge
    rw [hw]
    simp [hlt]
  · intro w hw
    have hlt : (toSaleItem p).price < w := by
      rw [toSaleItem_was] at hw
      rw [toSaleItem_price]
      exact getPrices_was_lt p w hw
    unfold gridBadge specDiscountPercent
    rw [hw]
    simp [hlt]

/-- Witness for C2 at a concrete product with current price 75 and compare-at
price 100. -/
theorem c2_discount_badge_witness :
    (toSaleItem sampleProduct).was = some 100 ∧
    gridBadge (toSaleItem sampleProduct) =
      some (specDiscountPercent (toSaleItem sampleProduct).price 100) :=
  ⟨rfl, (c2_discount_badge sampleProduct).2.1 100 rfl⟩

/-- C9: the displayed best-sellers list has at most 8 items, and entries of
the fetched data beyond the first 8 do not affect it. -/
theorem c9_at_most_eight (l extra : List Product) :
    (itemsOf l).length ≤ 8 ∧
    (8 ≤ l.length → itemsOf (l ++ extra) = itemsOf l) := by
  constructor
  · simp only [itemsOf, List.length_map, List.length_take]
    exact min_le_left _ _
  · intro h
    simp [itemsOf, List.take_append_of_le_length h]

/-- Witness for C9 on a list of exactly 8 products extended by one more. -/
theorem c9_at_most_eight_witness :
    8 ≤ (List.replicate 8 sampleProduct).length ∧
    itemsOf (List.replicate 8 sampleProduct ++ [sampleProduct]) =
      itemsOf (List.replicate 8 sampleProduct) :=
  ⟨by simp, (c9_at_most_eight (List.replicate 8 sampleProduct) [sampleProduct]).2 (by simp)⟩

/-- C7: on quantities ≥ 1, decrement yields `max 1 (q − 1)` (so 1 stays 1 and
decrement-then-increment from 5 returns 5), increment yields `q + 1`, direct
entry yields `max 1 v` for a parsed integer and 1 otherwise, and any sequence
of quantity events keeps the quantity ≥ 1. -/
theorem c7_quantity (q : ℤ) (hq : 1 ≤ q) :
    qtyStep .dec q = max 1 (q - 1) ∧
    qtyStep .dec 1 = 1 ∧
    qtyStep .inc (qtyStep .dec 5) = 5 ∧
    qtyStep .inc q = q + 1 ∧
    (∀ v : ℤ, qtyStep (.input (some v)) q = max 1 v) ∧
    qtyStep (.input none) q = 1 ∧
    (∀ es : List QtyEvent, 1 ≤ es.foldl (fun a e => qtyStep e a) q) :=
  ⟨rfl, by norm_num [qtyStep], by norm_num [qtyStep], rfl, fun _ => rfl, rfl,
    fun es => qtyFold_ge_one es q hq⟩

/-- Witness for C7 at quantity 5. -/
theorem c7_quantity_witness :
    (1 : ℤ) ≤ 5 ∧
    (qtyStep .dec 5 = max 1 (5 - 1) ∧
      qtyStep .dec 1 = 1 ∧
      qtyStep .inc (qtyStep .dec 5) = 5 ∧
      qtyStep .inc 5 = 5 + 1 ∧
      (∀ v : ℤ, qtyStep (.input (some v)) 5 = max 1 v) ∧
      qtyStep (.input none) 5 = 1 ∧
      (∀ es : List QtyEvent, 1 ≤ es.foldl (fun a e => qtyStep e a) 5)) :=
  ⟨by norm_num, c7_quantity 5 (by norm_num)⟩

/-- C4: for item count N > 1 and index in `[0, N)`, `next` then `prev` (and
`prev` then `next`) return to the original index, and any sequence of
next/prev/dot/tick steps keeps the index in `[0, N)`. -/
theorem c4_navigation (n : ℕ) (i : ℤ) (hn : 1 < n) (h0 : 0 ≤ i) (h1 : i < n) :
    carouselGo n (-1) (carouselGo n 1 i) = i ∧
    carouselGo n 1 (carouselGo n (-1) i) = i ∧
    ∀ es : List NavEvent, (∀ e ∈ es, navValid n e = true) →
      0 ≤ es.foldl (fun j e => navStep n e j) i ∧
        es.foldl (fun j e => navStep n e j) i < n :=
  ⟨carouselGo_prev_next n i hn h0 h1, carouselGo_next_prev n i hn h0 h1,
    fun es hes => navFold_range n (by omega) es hes i h0 h1⟩

/-- Witness for C4 at N = 3, index 1, and a concrete event sequence. -/
theorem c4_navigation_witness :
    1 < 3 ∧ (0 : ℤ) ≤ 1 ∧ (1 : ℤ) < (3 : ℕ) ∧
    carouselGo 3 (-1) (carouselGo 3 1 1) = 1 ∧
    (0 ≤ [NavEvent.next, .tick, .dot 2, .prev].foldl (fun j e => navStep 3 e j) 1 ∧
      [NavEvent.next, .tick, .dot 2, .prev].foldl (fun j e => navStep 3 e j) 1 < 3) :=
  ⟨by norm_num, by norm_num, by norm_num,
    (c4_navigation 3 1 (by norm_num) (by norm_num) (by norm_num)).1,
    (c4_navigation 3 1 (by norm_num) (by norm_num) (by norm_num)).2.2
      [NavEvent.next, .tick, .dot 2, .prev] (by decide)⟩

/-- C3 (counterexample): a static-variant carousel whose `images` prop holds a
single image has item count 1 ≤ 1, yet its arrow and dot controls are rendered
(their visibility checks only the props) and its autoplay interval is
scheduled while not hovered — refuting the claim for the static variant. -/
theorem c3_controls_counterexample :
    (staticItems (some ["a"])).length ≤ 1 ∧
    staticArrowsVisible true = true ∧
    staticDotsVisible true = true ∧
    staticTimerScheduled false = true := by
  decide

/-- C3 (amended): in the gallery variant, item count ≤ 1 hides arrows and dots
and keeps the autoplay interval unscheduled, and a tick never advances the
index; the static variant always has at least one item, and with exactly one
item a tick leaves the index at 0. -/
theorem c3_amended_single_item (sa sd paused : Bool) (n : ℕ) (hn : n ≤ 1)
    (imgs : Option (List String)) (i j : ℤ) (h0 : 0 ≤ j) (h1 : j < 1) :
    galleryArrowsVisible sa n = false ∧
    galleryDotsVisible sd n = false ∧
    galleryTimerScheduled paused n = false ∧
    galleryStep .tick ⟨n, i, paused⟩ = ⟨n, i, paused⟩ ∧
    1 ≤ (staticItems imgs).length ∧
    carouselTick 1 j = 0 := by
  have hnlt : ¬ (1 < n) := by omega
  have hj : j = 0 := by omega
  subst hj
  refine ⟨?_, ?_, ?_, ?_, staticItems_length_pos imgs, by decide⟩
  · simp [galleryArrowsVisible, decide_eq_false hnlt]
  · simp [galleryDotsVisible, decide_eq_false hnlt]
  · simp [galleryTimerScheduled, decide_eq_false hnlt]
  · simp [galleryStep, galleryTimerScheduled, decide_eq_false hnlt]

/-- Witness for the amended C3 at a hidden-controls gallery with one item and
a one-image static carousel. -/
theorem c3_amended_single_item_witness :
    (1 : ℕ) ≤ 1 ∧ (0 : ℤ) ≤ 0 ∧ (0 : ℤ) < 1 ∧
    (galleryArrowsVisible true 1 = false ∧
      galleryDotsVisible true 1 = false ∧
      galleryTimerScheduled false 1 = false ∧
      galleryStep .tick ⟨1, 0, false⟩ = ⟨1, 0, false⟩ ∧
      1 ≤ (staticItems (some ["a"])).length ∧
      carouselTick 1 0 = 0) :=
  ⟨le_refl 1, le_refl 0, by norm_num,
    c3_amended_single_item true true false 1 (le_refl 1) (some ["a"]) 0 0
      (le_refl 0) (by norm_num)⟩

/-- C5 (counterexample): in the static variant, after two ticks on a
three-image prop the index is 2; shrinking the `images` prop to a single image
leaves the index at 2, out of range of the new one-item sequence — there is no
index-reset effect in the static variant. -/
theorem c5_reset_counterexample :
    (staticStep (.setImages (some ["a"]))
        (staticStep .tick (staticStep .tick (staticInit (some ["a", "b", "c"]))))).index = 2 ∧
    ¬ ((staticStep (.setImages (some ["a"]))
        (staticStep .tick (staticStep .tick (staticInit (some ["a", "b", "c"]))))).index <
          ((staticStep (.setImages (some ["a"]))
            (staticStep .tick (staticStep .tick
              (staticInit (some ["a", "b", "c"]))))).numItems : ℤ)) := by
  decide

/-- C5 (amended): the gallery variant resets the slide index to 0 whenever the
item sequence changes length (hence in range of any non-empty new sequence);
the static variant leaves the index unchanged when its `images` prop changes. -/
theorem c5_amended_reset (s : CarouselState) (m : ℕ) (hm : m ≠ s.numItems)
    (t : CarouselState) (imgs : Option (List String)) :
    (galleryStep (.setItems m) s).index = 0 ∧
    (0 < m → 0 ≤ (galleryStep (.setItems m) s).index ∧
      (galleryStep (.setItems m) s).index < m) ∧
    (staticStep (.setImages imgs) t).index = t.index := by
  have h0 : (galleryStep (.setItems m) s).index = 0 := by simp [galleryStep, hm]
  exact ⟨h0, fun hmp => ⟨by simp [h0], by rw [h0]; exact_mod_cast hmp⟩, rfl⟩

/-- Witness for the amended C5: gallery data shrinking from 3 items to 1
resets the index; the static variant keeps index 2 on the same change. -/
theorem c5_amended_reset_witness :
    (1 : ℕ) ≠ (⟨3, 2, false⟩ : CarouselState).numItems ∧
    (galleryStep (.setItems 1) ⟨3, 2, false⟩).index = 0 ∧
    (staticStep (.setImages (some ["a"])) ⟨3, 2, false⟩).index =
      (⟨3, 2, false⟩ : CarouselState).index :=
  ⟨by decide, (c5_amended_reset ⟨3, 2, false⟩ 1 (by decide) ⟨3, 2, false⟩ (some ["a"])).1,
    (c5_amended_reset ⟨3, 2, false⟩ 1 (by decide) ⟨3, 2, false⟩ (some ["a"])).2.2⟩

/-- C1: on the quick-view confirm action with the modal open on a normalized
item — a missing color or size selection raises exactly the blocking prompt,
emits no notification and leaves the modal open; with both selections chosen
from the item's option lists it emits exactly one `cart:add` notification
carrying the item, color, size and quantity, and closes the modal; and the
action is enabled exactly when the item's stock is known and positive. -/
theorem c1_confirm_action (p : Product) (m : ModalState)
    (ha : m.active = some (toSaleItem p)) :
    ((m.color = none ∨ m.size = none) →
      addToCartClick m = ⟨m, [], [addToCartAlert]⟩) ∧
    (∀ c z, m.color = some c → m.size = some z →
      c ∈ (itemColors (toSaleItem p)).map Color.name →
      z ∈ itemSizes (toSaleItem p) →
      addToCartClick m =
        ⟨{ m with active := none }, [⟨toSaleItem p, c, z, m.qty⟩], []⟩) ∧
    (addToCartEnabled (toSaleItem p) = true ↔ ∃ k, p.stock = some k ∧ 0 < k) := by
  refine ⟨?_, ?_, ?_⟩
  · intro h
    unfold addToCartClick
    rw [ha]
    rcases h with hc | hz
    · rw [hc]
    · cases hc : m.color with
      | none => rfl
      | some c => rw [hz]
  · intro c z hc hz hcm hzm
    have hcne : c ≠ "" := def_color_names_ne c (by rwa [itemColors_toSaleItem] at hcm)
    have hzne : z ≠ "" := def_size_ne z (by rwa [itemSizes_toSaleItem] at hzm)
    unfold addToCartClick
    rw [ha, hc, hz]
    simp only
    rw [if_neg (by tauto)]
  · unfold addToCartEnabled
    rw [toSaleItem_stock]
    cases hs : p.stock with
    | none => simp
    | some k => simp

/-- Witness for C1: confirming with color Navy, size S, quantity 2 on the
sample item dispatches exactly one notification and clears `active`. -/
theorem c1_confirm_action_witness :
    sampleModal.active = some (toSaleItem sampleProduct) ∧
    sampleModal.color = some "Navy" ∧ sampleModal.size = some "S" ∧
    "Navy" ∈ (itemColors (toSaleItem sampleProduct)).map Color.name ∧
    "S" ∈ itemSizes (toSaleItem sampleProduct) ∧
    addToCartClick sampleModal =
      ⟨{ sampleModal with active := none },
        [⟨toSaleItem sampleProduct, "Navy", "S", sampleModal.qty⟩], []⟩ :=
  ⟨rfl, rfl, rfl, by decide, by decide,
    (c1_confirm_action sampleProduct sampleModal rfl).2.1 "Navy" "S" rfl rfl
      (by decide) (by decide)⟩

/-- C6: whenever the modal opens on an item — from a closed modal, and in
particular when opening on item B after a session on item A — the selection
state is reset to that item's defaults: image index 0, the item's first color
option, the item's first size option, quantity 1, regardless of prior state;
for normalized items the defaults are color "Navy" and size "S". -/
theorem c6_open_resets (s : CompState) (A B : SaleItem) (hA : s.modal.active = none) :
    (modalStep (.openItem A) s).state.modal =
      { active := some A, activeImg := 0,
        color := (A.colors.bind List.head?).map Color.name,
        size := A.sizes.bind List.head?, qty := 1 } ∧
    (modalStep (.openItem B)
        (modalStep .closeBtn (modalStep (.openItem A) s).state).state).state.modal =
      { active := some B, activeImg := 0,
        color := (B.colors.bind List.head?).map Color.name,
        size := B.sizes.bind List.head?, qty := 1 } ∧
    ∀ p : Product,
      ((toSaleItem p).colors.bind List.head?).map Color.name = some "Navy" ∧
      (toSaleItem p).sizes.bind List.head? = some "S" := by
  have h1 := modalStep_open_eq s A hA
  refine ⟨by rw [h1], ?_, fun p => ⟨rfl, rfl⟩⟩
  rw [h1]
  simp [modalStep, applyActiveEffect]

/-- Witness for C6 opening the sample item from the initial state. -/
theorem c6_open_resets_witness :
    initialState.modal.active = none ∧
    (modalStep (.openItem sampleItem) initialState).state.modal =
      { active := some sampleItem, activeImg := 0,
        color := (sampleItem.colors.bind List.head?).map Color.name,
        size := sampleItem.sizes.bind List.head?, qty := 1 } :=
  ⟨rfl, (c6_open_resets initialState sampleItem sampleItem rfl).1⟩

/-- C8: in every reachable state the scroll lock is engaged exactly while the
modal is open (and the component mounted); every exit path — close button,
overlay click, Escape, unmount — leaves the scroll lock off, and opening the
modal turns it on. -/
theorem c8_scroll_lock (grid : List SaleItem) (s : CompState) (h : Reachable grid s) :
    s.scrollLocked = (s.mounted && s.modal.active.isSome) ∧
    (modalStep .closeBtn s).state.scrollLocked = false ∧
    (modalStep .overlayClick s).state.scrollLocked = false ∧
    (modalStep .escape s).state.scrollLocked = false ∧
    (modalStep .unmount s).state.scrollLocked = false ∧
    ∀ it, s.modal.active = none →
      (modalStep (.openItem it) s).state.scrollLocked = true := by
  obtain ⟨hlock, -, -⟩ := reachable_inv h
  have hclose : (applyActiveEffect s.modal.active
      { s with modal := { s.modal with active := none } }).scrollLocked = false := by
    cases hao : s.modal.active with
    | none =>
        rw [closeEffect_none s]
        simpa [hao] using hlock
    | some it => rw [closeEffect_some s it]
  refine ⟨hlock, hclose, hclose, hclose, rfl, ?_⟩
  intro it hnone
  rw [modalStep_open_eq s it hnone]

/-- Witness for C8 at the initial (reachable) state. -/
theorem c8_scroll_lock_witness :
    Reachable [] initialState ∧
    initialState.scrollLocked = (initialState.mounted && initialState.modal.active.isSome) ∧
    (modalStep .unmount initialState).state.scrollLocked = false :=
  ⟨.init, (c8_scroll_lock [] initialState .init).1,
    (c8_scroll_lock [] initialState .init).2.2.2.2.1⟩

/-- C10: every normalized item carries the fixed non-empty color and size
lists; in every reachable state with the modal open the color and size
selections are non-null; and the confirm action never raises the
missing-color/size validation prompt. -/
theorem c10_defaults_nonnull (ps : List Product) (s : CompState)
    (h : Reachable (itemsOf ps) s) :
    (∀ p, (toSaleItem p).colors = some DEF_COLORS ∧ (toSaleItem p).sizes = some DEF_SIZES) ∧
    DEF_COLORS ≠ [] ∧ DEF_SIZES ≠ [] ∧
    (∀ it, s.modal.active = some it →
      s.modal.color.isSome = true ∧ s.modal.size.isSome = true) ∧
    (modalStep .confirm s).alerts = [] := by
  refine ⟨fun p => ⟨rfl, rfl⟩, by decide, by decide, ?_, ?_⟩
  · intro it ha
    obtain ⟨⟨c, -, hc⟩, ⟨z, -, hz⟩⟩ := reachable_selection h ha
    exact ⟨by rw [hc]; rfl, by rw [hz]; rfl⟩
  · cases hao : s.modal.active with
    | none =>
        show (addToCartClick s.modal).alerts = []
        unfold addToCartClick
        rw [hao]
    | some it =>
        obtain ⟨⟨c, hcm, hc⟩, ⟨z, hzm, hz⟩⟩ := reachable_selection h hao
        show (addToCartClick s.modal).alerts = []
        exact addToCartClick_alerts_nil s.modal it hao c.name z hc hz
          (def_color_name_ne c hcm) (def_size_ne z hzm)

/-- Witness for C10 at the initial (reachable) state with an empty listing. -/
theorem c10_defaults_nonnull_witness :
    Reachable (itemsOf []) initialState ∧
    DEF_COLORS ≠ [] ∧
    (modalStep .confirm initialState).alerts = [] :=
  ⟨.init, (c10_defaults_nonnull [] initialState .init).2.1,
    (c10_defaults_nonnull [] initialState .init).2.2.2.2⟩

end EcommerceFashion
